import Mathlib

/-!
Shallow embedding of `react/features/always-on-top/AlwaysOnTop.js` from the
jitsi-meet repository: the always-on-top toolbar component (media state
synchronization, button view-model derivation, and the visibility hide-timer
machine), together with theorems settling the claims about it.
-/

namespace AlwaysOnTop

/-- A JavaScript value that is either a boolean or `undefined` (`none`). -/
abbrev JSVal := Option Bool

/-- JavaScript truthiness of such a value: `undefined` and `false` are falsy. -/
def truthy (v : JSVal) : Bool := v.getD false

/-- Embeds `TOOLBAR_TIMEOUT = 4000`, the hide delay in milliseconds. -/
def TOOLBAR_TIMEOUT : Nat := 4000

/-- The mutable per-instance data of the component: the React state object
(`visible`, `audioMuted`, `videoMuted`, `audioEnabled`, `videoEnabled`), the
instance field `this._hovered`, and the multiset (as a FIFO list of delays) of
outstanding `setTimeout` callbacks scheduled by `_hideToolbarAfterTimeout`.
The four media fields are `JSVal` because the event listeners store raw
payload fields, which can be `undefined`. -/
structure AOTState where
  visible : Bool
  audioMuted : JSVal
  videoMuted : JSVal
  audioEnabled : JSVal
  videoEnabled : JSVal
  hovered : Bool
  timers : List Nat
  deriving DecidableEq, Repr

/-- The state right after the constructor runs: `this.state` is
`visible: true` with all four media fields `false`, `this._hovered = false`,
and no timer is scheduled yet. -/
def initialState : AOTState :=
  { visible := true
    audioMuted := some false
    videoMuted := some false
    audioEnabled := some false
    videoEnabled := some false
    hovered := false
    timers := [] }

/-- Embeds `_audioEnabledListener({ enabled })`: stores the raw payload field
into `audioEnabled` via `setState`. -/
def audioEnabledListener (enabled : JSVal) (s : AOTState) : AOTState :=
  { s with audioEnabled := enabled }

/-- Embeds `_audioMutedListener({ muted })`: stores the raw payload field into
`audioMuted` via `setState`. -/
def audioMutedListener (muted : JSVal) (s : AOTState) : AOTState :=
  { s with audioMuted := muted }

/-- Embeds `_videoEnabledListener({ enabled })`. The source body is
`this.setState({ videoMuted: enabled })`: it writes the payload into
`videoMuted`, not into `videoEnabled`. -/
def videoEnabledListener (enabled : JSVal) (s : AOTState) : AOTState :=
  { s with videoMuted := enabled }

/-- Embeds `_videoMutedListener({ muted })`: stores the raw payload field into
`videoMuted` via `setState`. -/
def videoMutedListener (muted : JSVal) (s : AOTState) : AOTState :=
  { s with videoMuted := muted }

/-- Embeds `_hideToolbarAfterTimeout()`: schedules one `setTimeout` callback
with delay `TOOLBAR_TIMEOUT`. -/
def hideToolbarAfterTimeout (s : AOTState) : AOTState :=
  { s with timers := s.timers ++ [TOOLBAR_TIMEOUT] }

/-- The body of the `setTimeout` callback inside `_hideToolbarAfterTimeout`:
if `this._hovered` (read at fire time) it re-arms a fresh timer and returns;
otherwise it runs `this.setState({ visible: false })`. -/
def timerCallback (s : AOTState) : AOTState :=
  if s.hovered then hideToolbarAfterTimeout s
  else { s with visible := false }

/-- An outstanding timer fires: it is no longer pending, and its callback
body runs. -/
def fireTimer (s : AOTState) : AOTState :=
  timerCallback { s with timers := s.timers.tail }

/-- Embeds `_mouseMove()` together with the `componentWillUpdate` rule: if the
toolbar is not visible, `setState({ visible: true })` runs, and
`componentWillUpdate` sees the hidden-to-visible transition and calls
`_hideToolbarAfterTimeout()`; otherwise nothing happens (no state write). -/
def mouseMove (s : AOTState) : AOTState :=
  if !s.visible then hideToolbarAfterTimeout { s with visible := true }
  else s

/-- Embeds `_onMouseOver()`: sets `this._hovered = true`. -/
def mouseOver (s : AOTState) : AOTState :=
  { s with hovered := true }

/-- Embeds `_onMouseOut()`: sets `this._hovered = false`. -/
def mouseOut (s : AOTState) : AOTState :=
  { s with hovered := false }

/-- Embeds the resolution of the `Promise.all` in `componentDidMount`: on
rejection (`.catch(console.error)`) the failure is only logged and the state
is untouched; on fulfilment the four results are destructured with `= false`
defaults (a JavaScript default applies exactly when the value is `undefined`)
and stored with one `setState`. -/
def applyInitQuery (result : Except String (JSVal × JSVal × JSVal × JSVal))
    (s : AOTState) : AOTState :=
  match result with
  | .error _ => s
  | .ok (audioMuted, videoMuted, audioEnabled, videoEnabled) =>
      { s with
        audioMuted := some (audioMuted.getD false)
        videoMuted := some (videoMuted.getD false)
        audioEnabled := some (audioEnabled.getD false)
        videoEnabled := some (videoEnabled.getD false) }

/-- The component state right after `componentDidMount`: the constructor
state with the initial hide-timer armed by `_hideToolbarAfterTimeout()`. -/
def mountedState : AOTState := hideToolbarAfterTimeout initialState

/-- One step of the event loop during the mounted lifetime: a pending timer
fires, a mousemove / mouseover / mouseout event arrives, one of the four API
event callbacks runs with an arbitrary payload field, or the initial state
query settles. -/
inductive Step : AOTState → AOTState → Prop
  | fire (s : AOTState) : s.timers ≠ [] → Step s (fireTimer s)
  | move (s : AOTState) : Step s (mouseMove s)
  | over (s : AOTState) : Step s (mouseOver s)
  | out (s : AOTState) : Step s (mouseOut s)
  | audioMutedEv (s : AOTState) (v : JSVal) : Step s (audioMutedListener v s)
  | videoMutedEv (s : AOTState) (v : JSVal) : Step s (videoMutedListener v s)
  | audioEnabledEv (s : AOTState) (v : JSVal) :
      Step s (audioEnabledListener v s)
  | videoEnabledEv (s : AOTState) (v : JSVal) :
      Step s (videoEnabledListener v s)
  | initEv (s : AOTState) (r : Except String (JSVal × JSVal × JSVal × JSVal)) :
      Step s (applyInitQuery r s)

/-- The states the mounted component can reach from activation under any
interleaving of events. -/
inductive Reachable : AOTState → Prop
  | init : Reachable mountedState
  | step {s t : AOTState} : Reachable s → Step s t → Reachable t

/-- Invariant of the event system: the number of outstanding hide-timers is
one exactly when the toolbar is visible, and zero when it is hidden. -/
theorem timers_length_invariant (s : AOTState) (h : Reachable s) :
    s.timers.length = (if s.visible then 1 else 0) := by
  induction h with
  | init => rfl
  | @step s t _ st ih =>
      cases st with
      | fire hne =>
          have hv : s.visible = true := by
            by_cases hvis : s.visible
            · exact hvis
            · exfalso
              apply hne
              have : s.timers.length = 0 := by simp [ih, hvis]
              exact List.length_eq_zero.mp this
          have hlen : s.timers.length = 1 := by simp [ih, hv]
          have htail : s.timers.tail.length = 0 := by
            simp [List.length_tail, hlen]
          by_cases hh : s.hovered
          · simp [fireTimer, timerCallback, hideToolbarAfterTimeout, hh, hv,
              htail]
          · simp [fireTimer, timerCallback, hh, htail]
      | move =>
          by_cases hvis : s.visible
          · simpa [mouseMove, hvis] using ih
          · have : s.timers.length = 0 := by simp [ih, hvis]
            simp [mouseMove, hvis, hideToolbarAfterTimeout, this]
      | over => simpa [mouseOver] using ih
      | out => simpa [mouseOut] using ih
      | audioMutedEv v => simpa [audioMutedListener] using ih
      | videoMutedEv v => simpa [videoMutedListener] using ih
      | audioEnabledEv v => simpa [audioEnabledListener] using ih
      | videoEnabledEv v => simpa [videoEnabledListener] using ih
      | initEv r =>
          cases r with
          | error e => simpa [applyInitQuery] using ih
          | ok q =>
              obtain ⟨am, vm, ae, ve⟩ := q
              simpa [applyInitQuery] using ih

/-- C9: In every reachable state of the visibility machine, at most one
hide-timer is outstanding: neither the re-arm on fire nor the arming on the
hidden-to-visible transition ever creates a second concurrent timer. -/
theorem at_most_one_timer (s : AOTState) (h : Reachable s) :
    s.timers.length ≤ 1 := by
  have hinv := timers_length_invariant s h
  rw [hinv]
  by_cases hv : s.visible <;> simp [hv]

/-- Witness for `at_most_one_timer` at the initial mounted state. -/
theorem at_most_one_timer_witness : mountedState.timers.length ≤ 1 :=
  at_most_one_timer mountedState Reachable.init

/-- The effect of a button click: an `api.executeCommand(command)` dispatch,
plus whether `window.close()` is also called. -/
structure ClickAction where
  command : String
  closesWindow : Bool
  deriving DecidableEq, Repr

/-- One entry of the `toolbarButtons` descriptor map. -/
structure ButtonDescriptor where
  classNames : List String
  enabled : Bool
  id : String
  onClick : ClickAction
  deriving DecidableEq, Repr

/-- Embeds the `toolbarButtons` object literal. JavaScript preserves the
insertion order of string keys, so `Object.entries` yields the declaration
order camera, hangup, microphone. -/
def toolbarButtons : List (String × ButtonDescriptor) :=
  [("camera",
    { classNames := ["button", "icon-camera"]
      enabled := true
      id := "toolbar_button_camera"
      onClick := { command := "toggleVideo", closesWindow := false } }),
   ("hangup",
    { classNames := ["button", "icon-hangup", "button_hangup"]
      enabled := true
      id := "toolbar_button_hangup"
      onClick := { command := "hangup", closesWindow := true } }),
   ("microphone",
    { classNames := ["button", "icon-microphone"]
      enabled := true
      id := "toolbar_button_mute"
      onClick := { command := "toggleAudio", closesWindow := false } })]

/-- Embeds the `switch (key)` in `render()` that computes the per-button
`enabled` and `toggled` flags from the component state. The stored values are
the raw state fields (possibly `undefined`); the conditional operator tests
JavaScript truthiness of `enabled`. The `default` branch handles the hangup
button. -/
def deriveFlags (s : AOTState) (key : String) : JSVal × JSVal :=
  match key with
  | "microphone" =>
      (s.audioEnabled, if truthy s.audioEnabled then s.audioMuted
                       else some true)
  | "camera" =>
      (s.videoEnabled, if truthy s.videoEnabled then s.videoMuted
                       else some true)
  | _ => (some true, some false)

/-- The view-model handed to each `StatelessToolbarButton`: the descriptor
with its `enabled` and `toggled` fields replaced by the derived flags. -/
structure ButtonViewModel where
  classNames : List String
  id : String
  onClick : ClickAction
  enabled : JSVal
  toggled : JSVal
  deriving DecidableEq, Repr

/-- Embeds the `Object.entries(toolbarButtons).map(...)` in `render()`: for
each descriptor, in map order, build the updated button view-model. -/
def renderButtons (s : AOTState) : List (String × ButtonViewModel) :=
  toolbarButtons.map (fun kb =>
    (kb.1,
     { classNames := kb.2.classNames
       id := kb.2.id
       onClick := kb.2.onClick
       enabled := (deriveFlags s kb.1).1
       toggled := (deriveFlags s kb.1).2 }))

/-- The four `api.on` subscriptions made in `componentDidMount`, as
(topic, handler) pairs, in call order. -/
inductive ApiHandler
  | audioMutedL | videoMutedL | audioEnabledL | videoEnabledL
  deriving DecidableEq, Repr, BEq

/-- The (topic, handler) pairs passed to `api.on` in `componentDidMount`. -/
def mountSubscriptions : List (String × ApiHandler) :=
  [("audioMuteStatusChanged", .audioMutedL),
   ("videoMuteStatusChanged", .videoMutedL),
   ("audioEnabledStatusChanged", .audioEnabledL),
   ("videoEnabledStatusChanged", .videoEnabledL)]

/-- The (topic, handler) pairs passed to `api.removeListener` in
`componentWillUnmount`. -/
def unmountRemovals : List (String × ApiHandler) :=
  [("audioMuteStatusChanged", .audioMutedL),
   ("videoMuteStatusChanged", .videoMutedL),
   ("audioAvailabilityChanged", .audioEnabledL),
   ("videoAvailabilityChanged", .videoEnabledL)]

/-- Emitter semantics of `api.removeListener(topic, handler)`: drop that
(topic, handler) registration; removing a pair that was never registered is a
no-op. -/
def removeListener (ls : List (String × ApiHandler)) (topic : String)
    (h : ApiHandler) : List (String × ApiHandler) :=
  ls.filter (fun p => !(p.1 == topic && p.2 == h))

/-- The resources the component holds besides its own state: the API event
registrations and the window mousemove listener. -/
structure Runtime where
  state : AOTState
  apiListeners : List (String × ApiHandler)
  windowMouseMoveAttached : Bool
  deriving DecidableEq, Repr

/-- The runtime before `componentDidMount`: constructor state, nothing
subscribed, no window listener. -/
def initialRuntime : Runtime :=
  { state := initialState
    apiListeners := []
    windowMouseMoveAttached := false }

/-- Embeds `componentDidMount` (its synchronous part): subscribe the four API
topics, attach the window mousemove listener, and arm the initial hide-timer
via `_hideToolbarAfterTimeout()`. The `Promise.all` settles later, as a
`Step.initEv`. -/
def componentDidMount (r : Runtime) : Runtime :=
  { state := hideToolbarAfterTimeout r.state
    apiListeners := r.apiListeners ++ mountSubscriptions
    windowMouseMoveAttached := true }

/-- Embeds `componentWillUnmount`: the four `api.removeListener` calls in
source order, then `window.removeEventListener(mousemove)`. The method never
touches the pending `setTimeout`: no handle was stored and `clearTimeout` is
never called, so `state.timers` is left as it was. -/
def componentWillUnmount (r : Runtime) : Runtime :=
  { state := r.state
    apiListeners :=
      unmountRemovals.foldl (fun ls p => removeListener ls p.1 p.2)
        r.apiListeners
    windowMouseMoveAttached := false }

/-- A reachable state with the pointer resting over the toolbar. -/
def hoveredVisibleState : AOTState :=
  { initialState with hovered := true, timers := [TOOLBAR_TIMEOUT] }

/-- A reachable state with the toolbar visible and the pointer elsewhere. -/
def unhoveredVisibleState : AOTState :=
  { initialState with timers := [TOOLBAR_TIMEOUT] }

/-- A hidden state: not visible, no outstanding timer. -/
def hiddenState : AOTState :=
  { initialState with visible := false }

/-- C1: the video-availability callback does not update `videoEnabled`.
Evaluating `_videoEnabledListener` at payload `{ enabled: true }` from the
initial state: `videoEnabled` stays `false` while `videoMuted` becomes
`true`, because the source writes `setState({ videoMuted: enabled })`. -/
theorem videoEnabledListener_writes_wrong_field :
    (videoEnabledListener (some true) initialState).videoEnabled = some false
      ∧ (videoEnabledListener (some true) initialState).videoMuted
          = some true :=
  ⟨rfl, rfl⟩

/-- C2: the unsubscriptions do not match the subscriptions. After mounting
and then unmounting, the listeners for `audioEnabledStatusChanged` and
`videoEnabledStatusChanged` are still registered, because
`componentWillUnmount` removes the topics `audioAvailabilityChanged` and
`videoAvailabilityChanged`, which were never subscribed. -/
theorem unmount_leaks_two_listeners :
    (componentWillUnmount (componentDidMount initialRuntime)).apiListeners =
      [("audioEnabledStatusChanged", ApiHandler.audioEnabledL),
       ("videoEnabledStatusChanged", ApiHandler.videoEnabledL)] := by
  rfl

/-- C3: unmounting does not cancel the pending hide-timer. After mount then
immediate unmount, the 4000 ms timer is still outstanding, and when it fires
its callback runs against the unmounted component and calls
`setState({ visible: false })`. -/
theorem unmount_leaves_timer_pending :
    (componentWillUnmount (componentDidMount initialRuntime)).state.timers
        = [TOOLBAR_TIMEOUT]
      ∧ (fireTimer
          (componentWillUnmount (componentDidMount initialRuntime)).state
        ).visible = false :=
  ⟨rfl, rfl⟩

/-- C4: the derivation table of `render()`. For every MediaState (the four
boolean fields, together with any visibility, hover and timer data):
microphone has `enabled = audioEnabled` and
`toggled = if audioEnabled then audioMuted else true`; camera has
`enabled = videoEnabled` and
`toggled = if videoEnabled then videoMuted else true`; hangup is always
`enabled = true`, `toggled = false`. -/
theorem derivation_table :
    ∀ (am vm ae ve vis hov : Bool) (ts : List Nat),
      deriveFlags ⟨vis, some am, some vm, some ae, some ve, hov, ts⟩
          "microphone" = (some ae, some (if ae then am else true))
        ∧ deriveFlags ⟨vis, some am, some vm, some ae, some ve, hov, ts⟩
            "camera" = (some ve, some (if ve then vm else true))
        ∧ deriveFlags ⟨vis, some am, some vm, some ae, some ve, hov, ts⟩
            "hangup" = (some true, some false) := by
  intro am vm ae ve vis hov ts
  refine ⟨?_, ?_, ?_⟩
  · cases ae <;> cases am <;> rfl
  · cases ve <;> cases vm <;> rfl
  · rfl

/-- C5: semantics of a timer firing. If the pointer rests over the toolbar
at fire time, the state is unchanged and exactly one fresh timer is armed, so
any number of consecutive timer periods with hover held leaves the state
fixed; if not hovered, the toolbar becomes hidden and no timer remains; and
from a hidden state with no timer, every event other than a mousemove leaves
the toolbar hidden. -/
theorem timer_fire_semantics :
    (∀ (s : AOTState) (n : Nat), s.hovered = true →
        s.timers = [TOOLBAR_TIMEOUT] → fireTimer^[n] s = s)
      ∧ (∀ s : AOTState, s.hovered = false →
          s.timers = [TOOLBAR_TIMEOUT] →
            (fireTimer s).visible = false ∧ (fireTimer s).timers = [])
      ∧ (∀ s t : AOTState, s.visible = false → s.timers = [] →
          Step s t → t.visible = false ∨ t = mouseMove s) := by
  refine ⟨?_, ?_, ?_⟩
  · intro s n hh ht
    have hfix : fireTimer s = s := by
      simp only [fireTimer, timerCallback, hideToolbarAfterTimeout, ht, hh,
        List.tail_cons, List.nil_append, if_true]
      rw [← ht, ← hh]
    exact Function.iterate_fixed hfix n
  · intro s hh ht
    constructor
    · simp [fireTimer, timerCallback, hh]
    · simp [fireTimer, timerCallback, hh, ht]
  · intro s t hvis htim hst
    cases hst with
    | fire hne => exact absurd htim hne
    | move => exact Or.inr rfl
    | over => exact Or.inl (by simp [mouseOver, hvis])
    | out => exact Or.inl (by simp [mouseOut, hvis])
    | audioMutedEv v => exact Or.inl (by simp [audioMutedListener, hvis])
    | videoMutedEv v => exact Or.inl (by simp [videoMutedListener, hvis])
    | audioEnabledEv v =>
        exact Or.inl (by simp [audioEnabledListener, hvis])
    | videoEnabledEv v =>
        exact Or.inl (by simp [videoEnabledListener, hvis])
    | initEv r =>
        refine Or.inl ?_
        cases r with
        | error e => simpa [applyInitQuery] using hvis
        | ok q =>
            obtain ⟨am, vm, ae, ve⟩ := q
            simpa [applyInitQuery] using hvis

/-- Witness for `timer_fire_semantics` at concrete states: three consecutive
hovered periods leave the state fixed; an unhovered fire hides the toolbar
and leaves no timer; a mouseout in the hidden state leaves it hidden. -/
theorem timer_fire_semantics_witness :
    fireTimer^[3] hoveredVisibleState = hoveredVisibleState
      ∧ ((fireTimer unhoveredVisibleState).visible = false
          ∧ (fireTimer unhoveredVisibleState).timers = [])
      ∧ ((mouseOut hiddenState).visible = false
          ∨ mouseOut hiddenState = mouseMove hiddenState) :=
  ⟨timer_fire_semantics.1 hoveredVisibleState 3 rfl rfl,
   timer_fire_semantics.2.1 unhoveredVisibleState rfl rfl,
   timer_fire_semantics.2.2 hiddenState (mouseOut hiddenState) rfl rfl
     (Step.out hiddenState)⟩

/-- C6: a mousemove while hidden makes the toolbar visible and arms exactly
one new `TOOLBAR_TIMEOUT` timer; a mousemove while visible changes nothing
(no state write, hence no re-render and no timer change). -/
theorem mouse_move_semantics :
    ∀ s : AOTState,
      (s.visible = false →
        mouseMove s =
          { s with visible := true
                   timers := s.timers ++ [TOOLBAR_TIMEOUT] })
        ∧ (s.visible = true → mouseMove s = s) := by
  intro s
  constructor
  · intro h
    simp [mouseMove, h, hideToolbarAfterTimeout]
  · intro h
    simp [mouseMove, h]

/-- Witness for `mouse_move_semantics`: at the hidden state a mousemove shows
the toolbar and arms the timer; at the initial visible state it is a no-op. -/
theorem mouse_move_semantics_witness :
    mouseMove hiddenState =
        { hiddenState with visible := true
                           timers := hiddenState.timers ++ [TOOLBAR_TIMEOUT] }
      ∧ mouseMove initialState = initialState :=
  ⟨(mouse_move_semantics hiddenState).1 rfl,
   (mouse_move_semantics initialState).2 rfl⟩

/-- C7: if the combined four-way initial state query rejects, no state
update occurs, for every prior state; and at the pre-initialization default
state the microphone and camera view-models are both
`enabled = false, toggled = true`. -/
theorem init_query_failure :
    (∀ (e : String) (s : AOTState), applyInitQuery (.error e) s = s)
      ∧ deriveFlags initialState "microphone" = (some false, some true)
      ∧ deriveFlags initialState "camera" = (some false, some true) :=
  ⟨fun _ _ => rfl, rfl, rfl⟩

/-- C8 as claimed is false: invoking an event callback with an `undefined`
payload field does not leave the field at `false`; from the initial state
(where `audioEnabled` is `false`) it stores `undefined`. -/
theorem undefined_payload_not_false :
    (audioEnabledListener none initialState).audioEnabled ≠ some false := by
  decide

/-- C8 amended: each of the four event callbacks stores the raw payload
field, so an `undefined` field is stored as `undefined` in the target state
field (for the video-availability callback that target is `videoMuted`), not
as the boolean `false`; no error is raised, and JavaScript truthiness treats
the stored `undefined` as false in the render derivation. -/
theorem undefined_payload_stored_raw :
    ∀ s : AOTState,
      (audioEnabledListener none s).audioEnabled = none
        ∧ (audioMutedListener none s).audioMuted = none
        ∧ (videoMutedListener none s).videoMuted = none
        ∧ (videoEnabledListener none s).videoMuted = none
        ∧ truthy none = false :=
  fun _ => ⟨rfl, rfl, rfl, rfl, rfl⟩

/-- C10: for every component state, the rendered snapshot lists the three
button view-models in the declaration order of the `toolbarButtons` literal:
camera, hangup, microphone. -/
theorem render_order (s : AOTState) :
    (renderButtons s).map Prod.fst = ["camera", "hangup", "microphone"] :=
  rfl

end AlwaysOnTop
